import Mathlib

/-!
Verification of the semantic-search service in `src/main.py`.

The service (≈120 lines of Python) accepts a text query, embeds it via an
external embedding provider, queries a persisted vector index for nearest
neighbors (optionally filtered by metadata equality), shapes the results,
logs the transaction, and returns the ordered list.

Modelling conventions for the shallow embedding:
* Python floats are modelled as rationals (ℚ); Python ints as ℤ.
* A Python dict used as an ordered string-to-string mapping is modelled as
  `List (String × String)` (Python dicts preserve insertion order).
* Fallible calls to the external collaborators (the OpenAI embedding call,
  the ChromaDB `collection.query` call, the log sink write) are modelled as
  functions returning `Except String α`; the error string models `str(e)`
  of the raised exception.
* `str.strip()` is modelled by `pyStrip`, removing leading and trailing
  whitespace characters from the char list (structurally recursive, so the
  kernel can evaluate it on concrete strings).
-/

/-- Models Python `str.strip()` (used at src/main.py line 66): remove
leading and trailing whitespace. -/
def pyStrip (s : String) : String :=
  ⟨((s.data.dropWhile Char.isWhitespace).reverse.dropWhile
      Char.isWhitespace).reverse⟩

/-- An embedding vector, as returned by the embedding provider
(`get_embedding`, src/main.py lines 27-32): a Python `list[float]`,
modelled as a list of rationals. -/
abbrev Embedding := List ℚ

/-- A metadata record attached to an indexed document: a string-to-string
mapping. -/
abbrev Metadata := List (String × String)

/-- The ChromaDB `where` predicate built by the service: a single `$and`
wrapper around a list of single-field equality conditions `{key: value}`.
The service only ever builds this shape (src/main.py line 69). -/
inductive WhereClause where
  | andAll (conditions : List (String × String))
deriving Repr, DecidableEq

/-- The list of equality conditions under the `$and` wrapper. -/
def WhereClause.conditions : WhereClause → List (String × String)
  | .andAll cs => cs

/-- Embeds src/main.py lines 62-69 (inside `search_permits`): the `where`
clause construction.  Python:
```
where_clause = None
if filters:
    and_conditions = []
    for key, value in filters.items():
        if value is not None and str(value).strip() != "":
            and_conditions.append({key: value})
    if and_conditions:
        where_clause = {"$and": and_conditions}
```
`if filters:` is falsy for both `None` and the empty dict.  The values are
typed `str` by the request schema, so the `value is not None` guard is
always true and is dropped from the model. -/
def build_where_clause (filters : Option (List (String × String))) :
    Option WhereClause :=
  match filters with
  | none => none
  | some l =>
    if l = [] then none
    else
      let and_conditions :=
        l.foldl (fun acc kv => if pyStrip kv.2 ≠ "" then acc ++ [kv] else acc) []
      if and_conditions = [] then none
      else some (WhereClause.andAll and_conditions)

/-- Round a rational to the nearest integer, ties to even: the semantics of
Python 3 `round` (banker's rounding), applied to the exact value. -/
def roundHalfEven (q : ℚ) : ℤ :=
  let f := ⌊q⌋
  let r := q - (f : ℚ)
  if r < 1/2 then f
  else if 1/2 < r then f + 1
  else if f % 2 = 0 then f else f + 1

/-- Embeds Python `round(x, 4)` (src/main.py line 85): round to 4 decimal
places, ties to even, on the value modelled as a rational. -/
def round4 (q : ℚ) : ℚ := (roundHalfEven (q * 10000) : ℚ) / 10000

/-- The successful result of `collection.query` as consumed by the code.
ChromaDB returns one inner list per query embedding; the code always
queries with exactly one embedding and selects `results["documents"][0]`,
`results["metadatas"][0]`, `results["distances"][0]` (src/main.py line 81),
so we model those selected inner lists directly. -/
structure QueryResult where
  documents : List String
  metadatas : List Metadata
  distances : List ℚ
deriving Repr, DecidableEq

/-- One element of the response's `results` list (src/main.py lines
82-86). -/
structure SearchResultItem where
  document : String
  metadata : Metadata
  similarity_score : ℚ
deriving Repr, DecidableEq

/-- The log entry assembled at src/main.py lines 88-92. -/
structure LogEntry where
  query : String
  filters : Option (List (String × String))
  top_results : QueryResult
deriving Repr, DecidableEq

/-- A FastAPI `HTTPException`, as raised at src/main.py line 99. -/
structure HTTPException where
  status_code : ℕ
  detail : String
deriving Repr, DecidableEq

/-- Embeds the result-shaping loop, src/main.py lines 80-86: Python
`zip(documents, metadatas, distances)` truncates to the shortest list; each
item carries the document, the metadata, and the distance rounded to 4
decimal places. -/
def shape_output : List String → List Metadata → List ℚ → List SearchResultItem
  | d :: ds, m :: ms, x :: xs => ⟨d, m, round4 x⟩ :: shape_output ds ms xs
  | _, _, _ => []

/-- The external collaborators the service holds as module-level globals
(src/main.py lines 24, 36-42, 16-20): the embedding provider, the vector
index, and the log sink.  Each fallible call returns `Except String α`,
the error string modelling `str(e)` of the raised exception.  The index
query takes the embedding, the `n_results` limit (`Option ℤ` because the
schema allows `top_k` to be null), and the optional `where` predicate. -/
structure Collaborators where
  embed : String → Except String Embedding
  indexQuery : Embedding → Option ℤ → Option WhereClause → Except String QueryResult
  sink : LogEntry → Except String Unit

/-- Models the Python stdlib `logging.info` call at src/main.py line 94:
errors raised while a handler emits a record (e.g. the log file is
unwritable) are caught inside the logging framework by
`Handler.handleError` and never propagate to the caller (documented
stdlib behaviour).  The sink's outcome is therefore discarded. -/
def logging_info (sink : LogEntry → Except String Unit) (entry : LogEntry) :
    Unit :=
  match sink entry with
  | _ => ()

/-- Embeds `search_permits` (src/main.py lines 56-99): embed the query,
build the `where` clause, query the index, shape the output, log, and
return; any exception raised by the embedding call or the index query is
caught by the blanket `except Exception` and re-raised as
`HTTPException(status_code=500, detail=str(e))`. -/
def search_permits (c : Collaborators) (query : String)
    (filters : Option (List (String × String))) (top_k : Option ℤ) :
    Except HTTPException (List SearchResultItem) :=
  match c.embed query with
  | .error e => .error ⟨500, e⟩
  | .ok query_embedding =>
    let where_clause := build_where_clause filters
    match c.indexQuery query_embedding top_k where_clause with
    | .error e => .error ⟨500, e⟩
    | .ok results =>
      let output := shape_output results.documents results.metadatas results.distances
      let log_entry : LogEntry := ⟨query, filters, results⟩
      let _ := logging_info c.sink log_entry
      .ok output

/-- A JSON-like Python value, for modelling the request body handed to the
schema validation.  Only the shapes the `SearchRequest` schema can meet are
distinguished. -/
inductive Py where
  | str (s : String)
  | int (n : ℤ)
  | null
  | dict (fields : List (String × Py))

/-- The validated request object, src/main.py lines 49-52:
```
class SearchRequest(BaseModel):
    query: str
    filters: Optional[Dict[str, str]] = None
    top_k: Optional[int] = 5
```
`query` is a required string; `filters` is an optional nullable
string-to-string mapping defaulting to `None`; `top_k` is an optional
nullable integer defaulting to `5`. -/
structure SearchRequest where
  query : String
  filters : Option (List (String × String))
  top_k : Option ℤ
deriving Repr, DecidableEq

/-- Validate a Python dict as a string-to-string mapping (`Dict[str, str]`):
every value must be a string. -/
def parseStrDict : List (String × Py) → Option (List (String × String))
  | [] => some []
  | (k, Py.str v) :: rest => (parseStrDict rest).map (fun r => (k, v) :: r)
  | _ => none

/-- Models the pydantic validation of the `SearchRequest` model declared at
src/main.py lines 49-52, applied to a JSON request body: `query` must be
present and a string (emptiness is NOT checked); `filters`, if present,
must be null or a dict with string values; `top_k`, if present, must be
null or an integer (sign is NOT checked), defaulting to 5 when absent.
Unknown fields are ignored (pydantic default). -/
def parseSearchRequest (body : List (String × Py)) :
    Except String SearchRequest :=
  match body.lookup "query" with
  | some (Py.str q) =>
    match body.lookup "filters" with
    | none =>
      match body.lookup "top_k" with
      | none => .ok ⟨q, none, some 5⟩
      | some Py.null => .ok ⟨q, none, none⟩
      | some (Py.int n) => .ok ⟨q, none, some n⟩
      | some _ => .error "top_k: value is not a valid integer"
    | some Py.null =>
      match body.lookup "top_k" with
      | none => .ok ⟨q, none, some 5⟩
      | some Py.null => .ok ⟨q, none, none⟩
      | some (Py.int n) => .ok ⟨q, none, some n⟩
      | some _ => .error "top_k: value is not a valid integer"
    | some (Py.dict fs) =>
      match parseStrDict fs with
      | none => .error "filters: value is not a valid dict of strings"
      | some l =>
        match body.lookup "top_k" with
        | none => .ok ⟨q, some l, some 5⟩
        | some Py.null => .ok ⟨q, some l, none⟩
        | some (Py.int n) => .ok ⟨q, some l, some n⟩
        | some _ => .error "top_k: value is not a valid integer"
    | some _ => .error "filters: value is not a valid dict"
  | _ => .error "query: field required as string"

/-- Whether the `query` field passes the declared type (`query: str`). -/
def queryFieldOk (body : List (String × Py)) : Bool :=
  match body.lookup "query" with
  | some (Py.str _) => true
  | _ => false

/-- Whether the `filters` field passes the declared type
(`Optional[Dict[str, str]]`). -/
def filtersFieldOk (body : List (String × Py)) : Bool :=
  match body.lookup "filters" with
  | none => true
  | some Py.null => true
  | some (Py.dict fs) => (parseStrDict fs).isSome
  | some _ => false

/-- Whether the `top_k` field passes the declared type (`Optional[int]`). -/
def topkFieldOk (body : List (String × Py)) : Bool :=
  match body.lookup "top_k" with
  | none => true
  | some Py.null => true
  | some (Py.int _) => true
  | some _ => false

/-- The declared type constraints of the `SearchRequest` schema, stated
declaratively (for comparison against the operational validation). -/
def bodyTypeOk (body : List (String × Py)) : Bool :=
  queryFieldOk body && filtersFieldOk body && topkFieldOk body

/-- Embeds the `POST /search` handler `search_vector` (src/main.py lines
103-110): forwards the validated request's fields to `search_permits`. -/
def search_vector (c : Collaborators) (request : SearchRequest) :
    Except HTTPException (List SearchResultItem) :=
  search_permits c request.query request.filters request.top_k

/-- The full `POST /search` boundary: FastAPI runs the pydantic validation
first and answers a validation failure with HTTP 422 (a 4xx) and the
field-level detail, never invoking the handler; otherwise it dispatches to
`search_vector`. -/
def handle_post_search (c : Collaborators) (body : List (String × Py)) :
    Except (ℕ × String) (List SearchResultItem) :=
  match parseSearchRequest body with
  | .error msg => .error (422, msg)
  | .ok req =>
    match search_vector c req with
    | .error e => .error (e.status_code, e.detail)
    | .ok out => .ok out

/-- The `GET /healthz` response payload (src/main.py lines 113-115). -/
structure HealthResponse where
  ok : Bool
deriving Repr, DecidableEq

/-- Embeds `health_check` (src/main.py lines 113-115) together with the
HTTP status FastAPI attaches: the handler body never touches the
module-level collaborator handles, so we pass them explicitly to state
independence.  Returns status 200 and the static payload. -/
def health_check (_c : Collaborators) : ℕ × HealthResponse :=
  (200, ⟨true⟩)

/-- Whether the validation succeeded (the request reaches the handler). -/
def parseIsOk (e : Except String SearchRequest) : Bool :=
  match e with
  | .ok _ => true
  | .error _ => false

/-!  Helper lemmas about the embedded operations. -/

/-- The appending fold of the `and_conditions` loop builds exactly the
filter of the entries whose trimmed value is non-empty, in order. -/
theorem build_fold_eq_filter :
    ∀ (l acc : List (String × String)),
      l.foldl (fun acc kv => if pyStrip kv.2 ≠ "" then acc ++ [kv] else acc) acc
        = acc ++ l.filter (fun kv => pyStrip kv.2 ≠ "")
  | [], acc => by simp
  | kv :: l, acc => by
    rw [List.foldl_cons, build_fold_eq_filter l, List.filter_cons]
    by_cases h : pyStrip kv.2 = "" <;> simp [h]

/-- Closed form of the `where` clause construction on a present mapping:
it is the `$and` of the kept entries when any survive, else `None`. -/
theorem build_where_clause_some (l : List (String × String)) :
    build_where_clause (some l)
      = if l.filter (fun kv => pyStrip kv.2 ≠ "") = [] then none
        else some (WhereClause.andAll
          (l.filter (fun kv => pyStrip kv.2 ≠ ""))) := by
  rcases eq_or_ne l [] with rfl | hl
  · rfl
  · simp only [build_where_clause]
    rw [if_neg hl]
    simp only [build_fold_eq_filter l [], List.nil_append]

/-- Length of the shaped output: `zip` truncates to the shortest of the
three lists. -/
theorem shape_output_length :
    ∀ (d : List String) (m : List Metadata) (x : List ℚ),
      (shape_output d m x).length = min d.length (min m.length x.length)
  | [], m, x => by simp [shape_output]
  | _ :: _, [], x => by simp [shape_output]
  | _ :: _, _ :: _, [] => by simp [shape_output]
  | _ :: ds, _ :: ms, _ :: xs => by
    simp [shape_output, shape_output_length ds ms xs]
    omega

/-- Element formula of the shaped output: the `i`-th item carries the
`i`-th document, the `i`-th metadata, and the `i`-th distance rounded. -/
theorem shape_output_get? :
    ∀ (d : List String) (m : List Metadata) (x : List ℚ) (i : ℕ),
      i < (shape_output d m x).length →
      (shape_output d m x).get? i =
        some ⟨d.getD i "", m.getD i [], round4 (x.getD i 0)⟩
  | _ :: _, _ :: _, _ :: _, 0, _ => by simp [shape_output]
  | _ :: ds, _ :: ms, _ :: xs, i + 1, h => by
    simp only [shape_output, List.length_cons, List.get?_cons_succ,
      List.getD_cons_succ] at h ⊢
    exact shape_output_get? ds ms xs i (by omega)
  | [], _, _, i, h => by simp [shape_output] at h
  | _ :: _, [], _, i, h => by simp [shape_output] at h
  | _ :: _, _ :: _, [], i, h => by simp [shape_output] at h

/-!  The claims. -/

/-- C1: for every filter mapping with at least one entry whose trimmed
value is non-empty, the constructed predicate is a single `$and` wrapping
exactly the equality conditions `{key: value}` of those entries (original,
untrimmed values, in mapping order); entries with empty or whitespace-only
values are excluded, and the construction is total (never errors). -/
theorem C1_filter_predicate (l : List (String × String))
    (h : ∃ p ∈ l, pyStrip p.2 ≠ "") :
    build_where_clause (some l)
      = some (WhereClause.andAll (l.filter (fun kv => pyStrip kv.2 ≠ ""))) := by
  obtain ⟨p, hp, hne⟩ := h
  have hmem : p ∈ l.filter (fun kv => pyStrip kv.2 ≠ "") :=
    List.mem_filter.2 ⟨hp, by simpa using hne⟩
  have hfne : l.filter (fun kv => pyStrip kv.2 ≠ "") ≠ [] := by
    intro h0
    rw [h0] at hmem
    exact absurd hmem (List.not_mem_nil p)
  rw [build_where_clause_some, if_neg hfne]

/-- Witness for C1: a mapping with one kept entry and one whitespace-only
entry yields the single-condition `$and`. -/
theorem C1_filter_predicate_witness :
    build_where_clause (some [("city", "Austin"), ("state", "  ")])
      = some (WhereClause.andAll [("city", "Austin")]) := by
  have h := C1_filter_predicate [("city", "Austin"), ("state", "  ")]
    ⟨("city", "Austin"), by decide⟩
  rw [h]
  rfl

/-- C5: for a filter mapping that is absent, empty, or all of whose values
trim to empty, the `where` clause handed to the vector index is `None`
(match all), and the whole search behaves exactly as with no filters. -/
theorem C5_match_all (filters : Option (List (String × String)))
    (h : filters = none ∨ filters = some [] ∨
      ∃ l, filters = some l ∧ ∀ p ∈ l, pyStrip p.2 = "") :
    build_where_clause filters = none ∧
      ∀ (c : Collaborators) (q : String) (t : Option ℤ),
        search_permits c q filters t = search_permits c q none t := by
  have hb : build_where_clause filters = none := by
    rcases h with rfl | rfl | ⟨l, rfl, hall⟩
    · rfl
    · rfl
    · have hnil : l.filter (fun kv => pyStrip kv.2 ≠ "") = [] := by
        rw [List.filter_eq_nil_iff]
        intro p hp
        simpa using hall p hp
      rw [build_where_clause_some, if_pos hnil]
  refine ⟨hb, ?_⟩
  intro c q t
  unfold search_permits
  rw [hb]
  rfl

/-- Witness for C5: the spec's scenario `filters = {"city": ""}`. -/
theorem C5_match_all_witness :
    build_where_clause (some [("city", "")]) = none ∧
      ∀ (c : Collaborators) (q : String) (t : Option ℤ),
        search_permits c q (some [("city", "")]) t
          = search_permits c q none t :=
  C5_match_all (some [("city", "")])
    (Or.inr (Or.inr ⟨[("city", "")], rfl, by decide⟩))

/-- C2: any failure of the embedding call or of the index query inside
`search_permits` is caught at the boundary and surfaced as a single
`HTTPException` with status 500 whose detail is the raw error message;
every error the function produces has status 500 (embedding and index
failures are indistinguishable to the caller) and carries no result list.
Filter construction and result shaping are total in the embedding, so they
raise nothing. -/
theorem C2_boundary_500 (c : Collaborators) (q : String)
    (f : Option (List (String × String))) (t : Option ℤ) :
    (∀ e, c.embed q = .error e →
      search_permits c q f t = .error ⟨500, e⟩) ∧
    (∀ emb e, c.embed q = .ok emb →
      c.indexQuery emb t (build_where_clause f) = .error e →
      search_permits c q f t = .error ⟨500, e⟩) ∧
    (∀ err, search_permits c q f t = .error err → err.status_code = 500) := by
  refine ⟨?_, ?_, ?_⟩
  · intro e he
    unfold search_permits
    rw [he]
  · intro emb e hemb hq
    unfold search_permits
    rw [hemb]
    simp only []
    rw [hq]
  · intro err herr
    unfold search_permits at herr
    cases hemb : c.embed q with
    | error e =>
      rw [hemb] at herr
      injection herr with h1
      rw [← h1]
    | ok emb =>
      rw [hemb] at herr
      simp only [] at herr
      cases hq : c.indexQuery emb t (build_where_clause f) with
      | error e =>
        rw [hq] at herr
        injection herr with h1
        rw [← h1]
      | ok res =>
        rw [hq] at herr
        exact absurd herr (by simp)

/-- Witness for C2: a failing embedding provider yields exactly a 500 with
the raw message. -/
theorem C2_boundary_500_witness :
    search_permits
      ⟨fun _ => .error "boom", fun _ _ _ => .ok ⟨[], [], []⟩,
        fun _ => .ok ()⟩ "q" none (some 5)
      = .error ⟨500, "boom"⟩ :=
  (C2_boundary_500
    ⟨fun _ => .error "boom", fun _ _ _ => .ok ⟨[], [], []⟩,
      fun _ => .ok ()⟩ "q" none (some 5)).1 "boom" rfl

/-- C3: when the embedding call and the index query succeed, the request
returns the shaped result list for every log sink, including one that
always fails: the log sink's outcome never reaches the response (logging
is best-effort; the stdlib logging framework swallows emit failures). -/
theorem C3_logging_best_effort (c : Collaborators) (q : String)
    (f : Option (List (String × String))) (t : Option ℤ)
    (emb : Embedding) (res : QueryResult)
    (h1 : c.embed q = .ok emb)
    (h2 : c.indexQuery emb t (build_where_clause f) = .ok res) :
    search_permits c q f t =
      .ok (shape_output res.documents res.metadatas res.distances) := by
  unfold search_permits
  rw [h1]
  simp only []
  rw [h2]

/-- Witness for C3: with a log sink that always errors, the successful
search still returns its results. -/
theorem C3_logging_best_effort_witness :
    search_permits
      ⟨fun _ => .ok [1], fun _ _ _ => .ok ⟨["d"], [[("k", "v")]], [1/2]⟩,
        fun _ => .error "log file unwritable"⟩ "q" none (some 5)
      = .ok (shape_output ["d"] [[("k", "v")]] [1/2]) :=
  C3_logging_best_effort
    ⟨fun _ => .ok [1], fun _ _ _ => .ok ⟨["d"], [[("k", "v")]], [1/2]⟩,
      fun _ => .error "log file unwritable"⟩ "q" none (some 5)
    [1] ⟨["d"], [[("k", "v")]], [1/2]⟩ rfl rfl

/-- C4: for every successful search, the returned list has exactly one item
per neighbor the index returned (given the index's well-formed equal-length
columns and its contract of returning at most `top_k` neighbors), hence at
most `top_k` items, and the `i`-th item is shaped from the `i`-th neighbor
(order preserved, no re-sorting). -/
theorem C4_count_and_order (c : Collaborators) (q : String)
    (f : Option (List (String × String))) (t : ℤ)
    (emb : Embedding) (res : QueryResult)
    (h1 : c.embed q = .ok emb)
    (h2 : c.indexQuery emb (some t) (build_where_clause f) = .ok res)
    (hm : res.metadatas.length = res.documents.length)
    (hx : res.distances.length = res.documents.length)
    (hk : (res.documents.length : ℤ) ≤ t) :
    ∃ out, search_permits c q f (some t) = .ok out ∧
      out.length = res.documents.length ∧
      (out.length : ℤ) ≤ t ∧
      ∀ i, i < out.length →
        out.get? i = some ⟨res.documents.getD i "", res.metadatas.getD i [],
          round4 (res.distances.getD i 0)⟩ := by
  have hlen : (shape_output res.documents res.metadatas res.distances).length
      = res.documents.length := by
    rw [shape_output_length, hm, hx]
    omega
  refine ⟨shape_output res.documents res.metadatas res.distances, ?_, hlen,
    ?_, ?_⟩
  · unfold search_permits
    rw [h1]
    simp only []
    rw [h2]
  · rw [hlen]
    exact hk
  · intro i hi
    exact shape_output_get? res.documents res.metadatas res.distances i hi

/-- Witness for C4: an index answering two neighbors under limit 5 yields
exactly those two items in order. -/
theorem C4_count_and_order_witness :
    ∃ out,
      search_permits
        ⟨fun _ => .ok [1], fun _ _ _ => .ok ⟨["a", "b"], [[], []], [0, 1]⟩,
          fun _ => .ok ()⟩ "q" none (some 5) = .ok out ∧
      out.length = (["a", "b"] : List String).length ∧
      (out.length : ℤ) ≤ 5 ∧
      ∀ i, i < out.length →
        out.get? i = some ⟨(["a", "b"] : List String).getD i "",
          ([[], []] : List Metadata).getD i [],
          round4 (([0, 1] : List ℚ).getD i 0)⟩ :=
  C4_count_and_order
    ⟨fun _ => .ok [1], fun _ _ _ => .ok ⟨["a", "b"], [[], []], [0, 1]⟩,
      fun _ => .ok ()⟩ "q" none 5 [1] ⟨["a", "b"], [[], []], [0, 1]⟩
    rfl rfl rfl rfl (by decide)

/-- C6: every item of the shaped output carries as its similarity score
exactly the corresponding index distance rounded to 4 decimal places — no
inversion, no normalization, no re-ranking — and the score is an integer
multiple of 1/10000 (exactly 4 decimal places). -/
theorem C6_score_is_round4 (docs : List String) (metas : List Metadata)
    (dists : List ℚ) (i : ℕ) (item : SearchResultItem)
    (h : (shape_output docs metas dists).get? i = some item) :
    ∃ d, dists.get? i = some d ∧ item.similarity_score = round4 d ∧
      ∃ n : ℤ, item.similarity_score = (n : ℚ) / 10000 := by
  induction docs generalizing metas dists i with
  | nil => simp [shape_output] at h
  | cons d ds ih =>
    cases metas with
    | nil => simp [shape_output] at h
    | cons m ms =>
      cases dists with
      | nil => simp [shape_output] at h
      | cons x xs =>
        cases i with
        | zero =>
          simp only [shape_output, List.get?_cons_zero, Option.some.injEq] at h
          refine ⟨x, rfl, ?_, roundHalfEven (x * 10000), ?_⟩
          · rw [← h]
          · rw [← h, round4]
        | succ j =>
          simp only [shape_output, List.get?_cons_succ] at h ⊢
          exact ih ms xs j h

/-- Witness for C6: the only item shaped from distance 3/10 scores
round4 (3/10). -/
theorem C6_score_is_round4_witness :
    ∃ d, ([3/10] : List ℚ).get? 0 = some d ∧
      (⟨"doc", [], round4 (3/10)⟩ : SearchResultItem).similarity_score
        = round4 d ∧
      ∃ n : ℤ,
        (⟨"doc", [], round4 (3/10)⟩ : SearchResultItem).similarity_score
          = (n : ℚ) / 10000 :=
  C6_score_is_round4 ["doc"] [[]] [3/10] 0 ⟨"doc", [], round4 (3/10)⟩ rfl

/-- The validation succeeds exactly when the three fields meet their
declared types. -/
theorem parse_ok_iff_types (body : List (String × Py)) :
    parseIsOk (parseSearchRequest body) = bodyTypeOk body := by
  cases hq : List.lookup "query" body with
  | none =>
    simp [parseSearchRequest, bodyTypeOk, queryFieldOk, parseIsOk, hq]
  | some pq =>
    cases pq with
    | int n =>
      simp [parseSearchRequest, bodyTypeOk, queryFieldOk, parseIsOk, hq]
    | null =>
      simp [parseSearchRequest, bodyTypeOk, queryFieldOk, parseIsOk, hq]
    | dict fs =>
      simp [parseSearchRequest, bodyTypeOk, queryFieldOk, parseIsOk, hq]
    | str q =>
      cases hf : List.lookup "filters" body with
      | none =>
        cases hk : List.lookup "top_k" body with
        | none =>
          simp [parseSearchRequest, bodyTypeOk, queryFieldOk, filtersFieldOk,
            topkFieldOk, parseIsOk, hq, hf, hk]
        | some pk =>
          cases pk <;>
            simp [parseSearchRequest, bodyTypeOk, queryFieldOk,
              filtersFieldOk, topkFieldOk, parseIsOk, hq, hf, hk]
      | some pf =>
        cases pf with
        | str s =>
          simp [parseSearchRequest, bodyTypeOk, queryFieldOk, filtersFieldOk,
            parseIsOk, hq, hf]
        | int n =>
          simp [parseSearchRequest, bodyTypeOk, queryFieldOk, filtersFieldOk,
            parseIsOk, hq, hf]
        | null =>
          cases hk : List.lookup "top_k" body with
          | none =>
            simp [parseSearchRequest, bodyTypeOk, queryFieldOk,
              filtersFieldOk, topkFieldOk, parseIsOk, hq, hf, hk]
          | some pk =>
            cases pk <;>
              simp [parseSearchRequest, bodyTypeOk, queryFieldOk,
                filtersFieldOk, topkFieldOk, parseIsOk, hq, hf, hk]
        | dict fs =>
          cases hps : parseStrDict fs with
          | none =>
            simp [parseSearchRequest, bodyTypeOk, queryFieldOk,
              filtersFieldOk, parseIsOk, hq, hf, hps]
          | some l =>
            cases hk : List.lookup "top_k" body with
            | none =>
              simp [parseSearchRequest, bodyTypeOk, queryFieldOk,
                filtersFieldOk, topkFieldOk, parseIsOk, hq, hf, hps, hk]
            | some pk =>
              cases pk <;>
                simp [parseSearchRequest, bodyTypeOk, queryFieldOk,
                  filtersFieldOk, topkFieldOk, parseIsOk, hq, hf, hps, hk]

/-- C7 counterexample: the schema accepts a body whose `query` is the empty
string and whose `top_k` is 0 (not positive), so the claimed rejection of
non-empty-text / positive-integer violations does not happen: only the
declared types are checked. -/
theorem C7_counterexample :
    parseSearchRequest [("query", Py.str ""), ("top_k", Py.int 0)]
      = .ok ⟨"", none, some 0⟩ := rfl

/-- C7 (amended): the HTTP layer's schema validation accepts a body exactly
when `query` is a present string (emptiness not checked), `filters` is
absent, null, or a string-to-string mapping, and `top_k` is absent, null,
or an integer (sign not checked); a body violating these type constraints
is rejected with a 422 (4xx) validation error before the orchestrator
runs. -/
theorem C7_schema_types_only (body : List (String × Py)) :
    ((∃ r, parseSearchRequest body = .ok r) ↔ bodyTypeOk body = true) ∧
    (∀ (c : Collaborators) (msg : String),
      parseSearchRequest body = .error msg →
      handle_post_search c body = .error (422, msg)) := by
  constructor
  · rw [← parse_ok_iff_types]
    cases hp : parseSearchRequest body with
    | ok r => simp [parseIsOk]
    | error e => simp [parseIsOk]
  · intro c msg h
    unfold handle_post_search
    rw [h]

/-- Witness for C7 (amended): a body whose `query` has the wrong type is
rejected with a 422 before any collaborator is consulted. -/
theorem C7_schema_types_only_witness :
    handle_post_search
      ⟨fun _ => .ok [], fun _ _ _ => .ok ⟨[], [], []⟩, fun _ => .ok ()⟩
      [("query", Py.int 3)]
      = .error (422, "query: field required as string") :=
  (C7_schema_types_only [("query", Py.int 3)]).2
    ⟨fun _ => .ok [], fun _ _ _ => .ok ⟨[], [], []⟩, fun _ => .ok ()⟩
    "query: field required as string" rfl

/-- C8: the `GET /healthz` handler returns HTTP 200 with the static payload
`{ok: true}` for every state of the embedding provider, the index, and the
log sink. -/
theorem C8_healthz_static (c : Collaborators) :
    health_check c = (200, ⟨true⟩) := rfl

/-- C9: when the request body omits `top_k` and validates, the resulting
request carries `top_k = 5`, and the search runs with limit 5. -/
theorem C9_topk_defaults_to_5 (body : List (String × Py))
    (req : SearchRequest)
    (h1 : List.lookup "top_k" body = none)
    (h2 : parseSearchRequest body = .ok req) :
    req.top_k = some 5 ∧
      ∀ c : Collaborators,
        search_vector c req = search_permits c req.query req.filters (some 5) := by
  have ht : req.top_k = some 5 := by
    obtain ⟨q0, f0, t0⟩ := req
    cases hq : List.lookup "query" body with
    | none => simp [parseSearchRequest, hq] at h2
    | some pq =>
      cases pq with
      | int n => simp [parseSearchRequest, hq] at h2
      | null => simp [parseSearchRequest, hq] at h2
      | dict fs => simp [parseSearchRequest, hq] at h2
      | str q =>
        cases hf : List.lookup "filters" body with
        | none =>
          simp [parseSearchRequest, hq, hf, h1] at h2
          simp [h2]
        | some pf =>
          cases pf with
          | str s => simp [parseSearchRequest, hq, hf] at h2
          | int n => simp [parseSearchRequest, hq, hf] at h2
          | null =>
            simp [parseSearchRequest, hq, hf, h1] at h2
            simp [h2]
          | dict fs =>
            cases hps : parseStrDict fs with
            | none => simp [parseSearchRequest, hq, hf, hps] at h2
            | some l =>
              simp [parseSearchRequest, hq, hf, hps, h1] at h2
              simp [h2]
  refine ⟨ht, ?_⟩
  intro c
  unfold search_vector
  rw [ht]

/-- Witness for C9: the body `{"query": "plumbing"}` yields `top_k = 5`. -/
theorem C9_topk_defaults_to_5_witness :
    (⟨"plumbing", none, some 5⟩ : SearchRequest).top_k = some 5 ∧
      ∀ c : Collaborators,
        search_vector c ⟨"plumbing", none, some 5⟩
          = search_permits c
              (SearchRequest.query ⟨"plumbing", none, some 5⟩)
              (SearchRequest.filters ⟨"plumbing", none, some 5⟩) (some 5) :=
  C9_topk_defaults_to_5 [("query", Py.str "plumbing")]
    ⟨"plumbing", none, some 5⟩ rfl rfl

/-- C10: the service never checks that `top_k` is at least 1: the schema
accepts every integer `top_k` (zero and negatives included), and the value
is handed unchanged to the index query as the `n_results` limit — observed
here through a probing index stub whose error message echoes the limit it
received. -/
theorem C10_topk_unchecked (t : ℤ) :
    parseSearchRequest [("query", Py.str "q"), ("top_k", Py.int t)]
      = .ok ⟨"q", none, some t⟩ ∧
    search_permits
      ⟨fun _ => .ok [],
        fun _ n _ => .error (match n with | some m => toString m | none => "None"),
        fun _ => .ok ()⟩
      "q" none (some t)
      = .error ⟨500, toString t⟩ := by
  constructor
  · rfl
  · rfl
